import Mathlib

/-!
Verification of the Pricing-IM dashboard (`src/app.py`) against its
natural-language specification.

The program is a single-file Streamlit dashboard.  We shallowly embed the
parts of it that the specification's claims are about:

* the data loader `carregar_dados` (app.py lines 23-50) and the
  `df.empty → st.stop()` guard (lines 58-62);
* the sidebar filter application (lines 102-120);
* the CFR-margin KPI (lines 147-150);
* the Commodities-tab daily-mean aggregation (lines 217-224);
* the pricing simulator `preco_estimado` (lines 399-405);
* the 30-observation alert rule (lines 413-431).

Tables are embedded as a list of column names plus a list of rows.  A pandas
DataFrame carries its values inside its columns; here every row carries every
field, and the `columns` list records which columns the loaded file actually
had (the code branches on `'X' in df.columns`).  Dates (`Data`, compared via
`.dt.date` in the code) are embedded as integer day numbers.  Prices,
quantities and FX rates are embedded as rationals: the claims under test are
exact-arithmetic statements, and the spec does not promise floating-point
behaviour beyond them.
-/

/-- One transaction record (one row of `df_case.xlsx`).  Field names follow
the Portuguese column names of the source: `Data`, `Produto`, `Cliente`,
`Preço FOB ($/t)`, `CFR ($/t)`, `Quantidade comercializada`,
`Câmbio (R$/US$)`, `FuturoMilho`, `FuturoSoja`, `CotacaoPetroleo`. -/
structure Linha where
  data : Int
  produto : String
  cliente : String
  precoFOB : ℚ
  cfr : ℚ
  quantidade : ℚ
  cambio : ℚ
  futuroMilho : ℚ
  futuroSoja : ℚ
  cotacaoPetroleo : ℚ
deriving DecidableEq, Repr

/-- A DataFrame: the column names present in the loaded file, plus the rows. -/
structure Tabela where
  columns : List String
  rows : List Linha
deriving DecidableEq, Repr

/-- `pd.DataFrame()` — the empty frame returned on load errors. -/
def Tabela.vazia : Tabela := ⟨[], []⟩

/-- `df.empty` (pandas): true when the frame has no rows. -/
def Tabela.isEmpty (t : Tabela) : Bool := t.rows.isEmpty

/-- `colunas_necessarias` of `carregar_dados` (app.py line 37). -/
def colunasNecessarias : List String :=
  ["Data", "Produto", "Preço FOB ($/t)", "CFR ($/t)"]

/-- What `carregar_dados` produces: the returned frame together with the
`st.error` messages it reported while loading. -/
structure ResultadoCarga where
  df : Tabela
  erros : List String
deriving Repr

/-- `carregar_dados` (app.py lines 23-50).  The file-system read is outside a
pure embedding, so it is passed in: `arquivoExiste` is `os.path.exists`, and
`leitura` is the outcome of `pd.read_excel` (`.error` = any exception, which
the `except` clause turns into an error message and an empty frame).  On a
successful read the code checks each required column and calls `st.error` for
each missing one, but then falls through to `return df` unconditionally; the
`Data`-to-datetime conversion is the identity here since dates are already
day numbers. -/
def carregar_dados (arquivoExiste : Bool) (leitura : Except String Tabela) :
    ResultadoCarga :=
  if !arquivoExiste then
    ⟨Tabela.vazia, ["Arquivo não encontrado: _data/df_case.xlsx"]⟩
  else
    match leitura with
    | .error e => ⟨Tabela.vazia, ["Erro ao carregar dados: " ++ e]⟩
    | .ok df =>
        ⟨df, (colunasNecessarias.filter (fun c => !df.columns.contains c)).map
          (fun c => "Coluna obrigatória não encontrada: " ++ c)⟩

/-- The caller-side guard (app.py lines 58-62): `if df.empty: st.stop()`.
Returns `true` when the dashboard goes on to the filter and chart sections,
`false` when `st.stop()` halts the render. -/
def pipelineProssegue (r : ResultadoCarga) : Bool := !r.df.isEmpty

/-- The filter block inside the `try:` (app.py lines 104-116).  `produtos` and
`clientes` are the multiselect values (Python truthiness: an empty list skips
that filter); `dataInicio`/`dataFim` are the slider values, `none` when the
`Data` column is absent (line 89); a `date` object is always truthy, so
`data_inicio and data_fim` is a `some`-check. -/
def aplicarFiltrosCore (df : Tabela) (produtos : List String)
    (dataInicio dataFim : Option Int) (clientes : List String) : Tabela :=
  let d1 : Tabela :=
    if produtos.isEmpty then df
    else ⟨df.columns, df.rows.filter (fun r => produtos.contains r.produto)⟩
  let d2 : Tabela :=
    match dataInicio, dataFim with
    | some di, some dfim =>
        if "Data" ∈ d1.columns then
          ⟨d1.columns, d1.rows.filter
            (fun r => decide (di ≤ r.data) && decide (r.data ≤ dfim))⟩
        else d1
    | _, _ => d1
  if clientes.isEmpty then d2
  else ⟨d2.columns, d2.rows.filter (fun r => clientes.contains r.cliente)⟩

/-- The whole `try/except` filter block (app.py lines 102-120).  A Python
exception is an effect outside a pure embedding, so whether one is raised
during the filtering is passed in as `excecao`.  The `except` clause reports
`st.error` and rebinds `df_filtrado = df.copy()`.  Result: the filtered view
plus the surfaced messages. -/
def aplicarFiltros (df : Tabela) (produtos : List String)
    (dataInicio dataFim : Option Int) (clientes : List String)
    (excecao : Option String) : Tabela × List String :=
  match excecao with
  | some e => (df, ["Erro ao aplicar filtros: " ++ e])
  | none => (aplicarFiltrosCore df produtos dataInicio dataFim clientes, [])

/-- `Series.mean()`: arithmetic mean of a list of rationals (`0` on `[]`,
where pandas gives NaN; every use below is guarded by nonemptiness). -/
def media (xs : List ℚ) : ℚ := xs.sum / xs.length

/-- `Series.std()`: pandas sample variance (ddof = 1); the standard deviation
used by the alert rule is its square root. -/
def varAmostral (xs : List ℚ) : ℚ :=
  ((xs.map (fun x => (x - media xs) ^ 2)).sum) / (xs.length - 1)

/-- The CFR-margin KPI (app.py lines 147-150):
`((df['CFR'] - df['FOB']).mean() / df['FOB'].mean()) * 100`. -/
def margemCFR (df : Tabela) : ℚ :=
  media (df.rows.map (fun r => r.cfr - r.precoFOB)) /
    media (df.rows.map (fun r => r.precoFOB)) * 100

/-- Mean of the per-row percentage margins — NOT what the code computes; used
to show the two aggregations differ. -/
def mediaMargensPorLinha (df : Tabela) : ℚ :=
  media (df.rows.map (fun r => (r.cfr - r.precoFOB) / r.precoFOB * 100))

/-- The distinct dates of a table, for `groupby(df['Data'].dt.date)`. -/
def datasUnicas (rows : List Linha) : List Int := (rows.map (·.data)).dedup

/-- Daily mean of one numeric field: the `'mean'` aggregation of a
`groupby` on the date, evaluated at date `d`. -/
def mediaDiaria (rows : List Linha) (f : Linha → ℚ) (d : Int) : ℚ :=
  media ((rows.filter (fun r => r.data == d)).map f)

/-- The three columns the Commodities tab aggregates (app.py lines 219-223). -/
def colunasCommodities : List String :=
  ["FuturoMilho", "FuturoSoja", "CotacaoPetroleo"]

/-- The Commodities-tab aggregation (app.py lines 219-224):
`df_filtrado.groupby(df_filtrado['Data'].dt.date).agg({'FuturoMilho': 'mean',
'FuturoSoja': 'mean', 'CotacaoPetroleo': 'mean'})`, with no guard on column
presence and no surrounding `try`.  pandas `.agg` raises a `KeyError` when an
aggregation key is not a column of the frame; the error is embedded as the
`.error` case. -/
def aggCommodities (df : Tabela) :
    Except String (List (Int × ℚ × ℚ × ℚ)) :=
  if colunasCommodities.all (fun c => df.columns.contains c) then
    .ok ((datasUnicas df.rows).map (fun d =>
      (d, mediaDiaria df.rows (·.futuroMilho) d,
          mediaDiaria df.rows (·.futuroSoja) d,
          mediaDiaria df.rows (·.cotacaoPetroleo) d)))
  else
    .error "KeyError: coluna de commodity ausente"

/-- The pricing simulator (app.py lines 399-405):
`preco_base + coef_cambio*(cambio - 5.0) + coef_petroleo*(petroleo - 80)
 + coef_soja*(futuro_soja - 14.0)` with `preco_base = 450`,
`coef_cambio = 20`, `coef_petroleo = 0.8`, `coef_soja = 2.5`. -/
def preco_estimado (cambio petroleo futuro_soja : ℚ) : ℚ :=
  450 + 20 * (cambio - 5.0) + 0.8 * (petroleo - 80) + 2.5 * (futuro_soja - 14.0)

/-- The three alert outcomes (app.py lines 423-428): `st.error` (above band),
`st.warning` (below band), `st.success` (normal). -/
inductive Alerta where
  | alta : Alerta
  | baixa : Alerta
  | normal : Alerta
deriving DecidableEq, Repr

/-- The three-way classification of app.py lines 423-428, given the current
price, the window mean `m` and the window sample variance `v`.  The code
compares against `media_30d ± 2*desvio_30d` with `desvio_30d = sqrt v`; since
`sqrt v` is irrational in general, the comparisons are encoded by their exact
rational equivalents: for `v = σ²` with `σ ≥ 0`,
`atual > m + 2σ ↔ 0 < atual - m ∧ 4v < (atual - m)²` (and symmetrically),
an equivalence proved as `classificar_spec` below. -/
def classificar (atual m v : ℚ) : Alerta :=
  if 0 < atual - m ∧ 4 * v < (atual - m) ^ 2 then .alta
  else if 0 < m - atual ∧ 4 * v < (m - atual) ^ 2 then .baixa
  else .normal

/-- `iloc[-30:]`: the last 30 elements of the series. -/
def janela30 (xs : List ℚ) : List ℚ := xs.drop (xs.length - 30)

/-- The alert rule (app.py lines 413-428) on the date-ordered FOB price
series: `if len(df_ordenado) > 30`, take `preco_atual = iloc[-1]`,
`media_30d`/`desvio_30d` over `iloc[-30:]`, and classify; otherwise no alert
is emitted. -/
def monitorarAlertas (serie : List ℚ) : Option Alerta :=
  if 30 < serie.length then
    some (classificar (serie.getLast?.getD 0) (media (janela30 serie))
      (varAmostral (janela30 serie)))
  else none

/-- The alert rule as claim C2 words it: mean and deviation taken over the 30
observations that PRECEDE the most recent one (window `iloc[:-1][-30:]`
instead of the code's `iloc[-30:]`).  For comparison with
`monitorarAlertas`. -/
def monitorarAlertasJanelaAnterior (serie : List ℚ) : Option Alerta :=
  if 30 < serie.length then
    some (classificar (serie.getLast?.getD 0) (media (janela30 serie.dropLast))
      (varAmostral (janela30 serie.dropLast)))
  else none

/-- Modelled from the spec: the Derived-Field Calculator (spec §4.2) belongs
to the repository's second dashboard variant, whose source file is not under
`src/`; `src/app.py` contains no derived-field computation.  Per the spec, the
output row adds a per-row daily-mean-FX field (group by date, average the FX
rate, broadcast back to every row of that date) and transaction values
`quantity × unit price × daily-mean-FX` for the FOB and CFR bases. -/
structure LinhaDerivada where
  base : Linha
  cambioMedioDia : ℚ
  valorFOB : ℚ
  valorCFR : ℚ
deriving DecidableEq, Repr

/-- Modelled from the spec: daily mean FX rate — the arithmetic mean of
`Câmbio (R$/US$)` over all rows sharing date `d`. -/
def cambioMedioDiario (rows : List Linha) (d : Int) : ℚ :=
  mediaDiaria rows (·.cambio) d

/-- Modelled from the spec: the Derived-Field Calculator itself (spec §4.2);
see `LinhaDerivada`. -/
def calcularCamposDerivados (rows : List Linha) : List LinhaDerivada :=
  rows.map (fun r =>
    let cm := cambioMedioDiario rows r.data
    ⟨r, cm, r.quantidade * r.precoFOB * cm, r.quantidade * r.cfr * cm⟩)

/-! Concrete inputs used to evaluate the embedded code in witnesses and
counterexamples. -/

/-- A placeholder transaction row; concrete inputs below override fields. -/
def linPad : Linha :=
  ⟨0, "Ureia", "ClienteA", 0, 0, 0, 0, 0, 0, 0⟩

/-- A table whose file had only the `Data` and `Produto` columns: the required
`Preço FOB ($/t)` and `CFR ($/t)` columns are absent, yet the frame has a
row. -/
def tabelaSemColunasObrigatorias : Tabela :=
  ⟨["Data", "Produto"], [linPad]⟩

/-- A 31-observation price series: 100 first, then 29 zeros, then 1. -/
def serieExemplo : List ℚ := (100 :: List.replicate 29 0) ++ [1]

/-- Two rows sharing date 0 with FX rates 4 and 6 (daily mean FX 5). -/
def linhasDerivExemplo : List Linha :=
  [{ linPad with cambio := 4, quantidade := 10, precoFOB := 2, cfr := 3 },
   { linPad with cambio := 6 }]

/-- The derived row produced for the first row of `linhasDerivExemplo`. -/
def linhaDerivExemplo : LinhaDerivada :=
  ⟨{ linPad with cambio := 4, quantidade := 10, precoFOB := 2, cfr := 3 },
   5, 100, 150⟩

/-- Two rows with FOB 100/CFR 110 and FOB 200/CFR 240: per-row margins 10%
and 20% (mean 15), but ratio of means (25/150)·100 = 50/3. -/
def tabelaMargem : Tabela :=
  ⟨["Data", "Produto", "Cliente", "Preço FOB ($/t)", "CFR ($/t)"],
   [{ linPad with precoFOB := 100, cfr := 110 },
    { linPad with precoFOB := 200, cfr := 240 }]⟩

/-- A loaded table that lacks the optional `FuturoSoja` column. -/
def tabelaSemSoja : Tabela :=
  ⟨["Data", "Produto", "Cliente", "Preço FOB ($/t)", "CFR ($/t)",
    "FuturoMilho", "CotacaoPetroleo"],
   [linPad]⟩

/-- A two-row table for the filter claims, with the full column set. -/
def tabelaFiltro : Tabela :=
  ⟨["Data", "Produto", "Cliente", "Preço FOB ($/t)", "CFR ($/t)",
    "Quantidade comercializada", "Câmbio (R$/US$)"],
   [{ linPad with data := 1, produto := "Ureia", cliente := "ClienteA" },
    { linPad with data := 3, produto := "KCl", cliente := "ClienteB" }]⟩

/-! ## Claim theorems -/

/-- C1, evaluated at the failing input: loading a file whose table lacks the
required `Preço FOB ($/t)` and `CFR ($/t)` columns makes `carregar_dados`
report the missing-column errors, yet it returns the table itself rather than
an empty result, and the `df.empty → st.stop()` guard lets the pipeline
proceed on the invalid table — contrary to the claim (and to the loader's own
error reporting) that a failed required-column validation yields an empty
result and halts all further processing. -/
theorem c1_coluna_faltante_nao_interrompe :
    (carregar_dados true (.ok tabelaSemColunasObrigatorias)).df =
        tabelaSemColunasObrigatorias ∧
    (carregar_dados true (.ok tabelaSemColunasObrigatorias)).erros =
      ["Coluna obrigatória não encontrada: Preço FOB ($/t)",
       "Coluna obrigatória não encontrada: CFR ($/t)"] ∧
    pipelineProssegue (carregar_dados true (.ok tabelaSemColunasObrigatorias)) =
        true :=
  ⟨rfl, rfl, rfl⟩

/-- C3: every row of the derived table satisfies
`valorFOB = quantidade × precoFOB × daily-mean-FX` and
`valorCFR = quantidade × cfr × daily-mean-FX`, where the row's daily-mean-FX
field equals the arithmetic mean of the FX rate over all rows sharing the
row's date. -/
theorem c3_valores_transacao (rows : List Linha) (l : LinhaDerivada)
    (h : l ∈ calcularCamposDerivados rows) :
    l.cambioMedioDia =
        media ((rows.filter (fun r => r.data == l.base.data)).map
          (fun r => r.cambio)) ∧
    l.valorFOB = l.base.quantidade * l.base.precoFOB * l.cambioMedioDia ∧
    l.valorCFR = l.base.quantidade * l.base.cfr * l.cambioMedioDia := by
  obtain ⟨r, hr, rfl⟩ := List.mem_map.mp h
  exact ⟨rfl, rfl, rfl⟩

/-- C3 witness: the derived-field equations evaluated on a concrete pair of
rows sharing a date (FX rates 4 and 6, daily mean 5). -/
theorem c3_valores_transacao_witness :
    linhaDerivExemplo.cambioMedioDia =
        media ((linhasDerivExemplo.filter
          (fun r => r.data == linhaDerivExemplo.base.data)).map
          (fun r => r.cambio)) ∧
    linhaDerivExemplo.valorFOB =
        linhaDerivExemplo.base.quantidade * linhaDerivExemplo.base.precoFOB *
          linhaDerivExemplo.cambioMedioDia ∧
    linhaDerivExemplo.valorCFR =
        linhaDerivExemplo.base.quantidade * linhaDerivExemplo.base.cfr *
          linhaDerivExemplo.cambioMedioDia :=
  c3_valores_transacao linhasDerivExemplo linhaDerivExemplo (by
    have h : cambioMedioDiario linhasDerivExemplo 0 = 5 := by
      norm_num [cambioMedioDiario, mediaDiaria, media, linhasDerivExemplo,
        linPad]
    refine List.mem_map.mpr
      ⟨{ linPad with cambio := 4, quantidade := 10, precoFOB := 2, cfr := 3 },
        by simp [linhasDerivExemplo], ?_⟩
    simp [linhaDerivExemplo, linPad, h]
    norm_num)

/-- C6: whenever an exception is raised during filtering, the filter block
returns the full input table unchanged and surfaces a message — never a
partially filtered result and never a propagated exception. -/
theorem c6_excecao_devolve_tabela_completa (df : Tabela)
    (produtos clientes : List String) (dataInicio dataFim : Option Int)
    (e : String) :
    (aplicarFiltros df produtos dataInicio dataFim clientes (some e)).1 = df ∧
    (aplicarFiltros df produtos dataInicio dataFim clientes (some e)).2 ≠ [] :=
  ⟨rfl, by simp [aplicarFiltros]⟩

/-- C8 counterexample: at the default slider values (5.2, 85.0, 14.5) the
simulator does NOT yield 458.25 (the spec's example miscomputes the sum:
450 + 4 + 4 + 1.25 = 459.25). -/
theorem c8_contraexemplo : preco_estimado 5.2 85 14.5 ≠ 458.25 := by
  norm_num [preco_estimado]

/-- C8 (amended): the simulator computes
`450 + 20·(fx − 5.0) + 0.8·(oil − 80) + 2.5·(soy − 14.0)`, and at the default
slider values (5.2, 85.0, 14.5) this is exactly 459.25. -/
theorem c8_simulador :
    (∀ cambio petroleo futuro_soja : ℚ,
      preco_estimado cambio petroleo futuro_soja =
        450 + 20 * (cambio - 5.0) + 0.8 * (petroleo - 80) +
          2.5 * (futuro_soja - 14.0)) ∧
    preco_estimado 5.2 85 14.5 = 459.25 :=
  ⟨fun _ _ _ => rfl, by norm_num [preco_estimado]⟩

/-- C9: the CFR-margin KPI is the mean of the per-row differences
(CFR − FOB) divided by the mean FOB price, times 100 — and this ratio of
means differs in general from the mean of the per-row percentage margins
(concretely on `tabelaMargem`: 50/3 versus 15). -/
theorem c9_margem_razao_de_medias (df : Tabela) (_h : df.rows ≠ []) :
    margemCFR df =
      media (df.rows.map (fun r => r.cfr - r.precoFOB)) /
        media (df.rows.map (fun r => r.precoFOB)) * 100 ∧
    margemCFR tabelaMargem ≠ mediaMargensPorLinha tabelaMargem :=
  ⟨rfl, by
    norm_num [margemCFR, mediaMargensPorLinha, media, tabelaMargem, linPad]⟩

/-- C9 witness: the KPI equations evaluated on the concrete two-row table. -/
theorem c9_margem_witness :
    margemCFR tabelaMargem =
      media (tabelaMargem.rows.map (fun r => r.cfr - r.precoFOB)) /
        media (tabelaMargem.rows.map (fun r => r.precoFOB)) * 100 ∧
    margemCFR tabelaMargem ≠ mediaMargensPorLinha tabelaMargem :=
  c9_margem_razao_de_medias tabelaMargem (by decide)

/-- C10: the Commodities tab aggregates `FuturoMilho`, `FuturoSoja` and
`CotacaoPetroleo` with no column-presence guard: on any filtered table
missing one of these optional columns the aggregation raises an uncaught
error. -/
theorem c10_commodities_sem_guarda (df : Tabela)
    (h : ∃ c ∈ colunasCommodities, c ∉ df.columns) :
    ∃ e, aggCommodities df = .error e := by
  refine ⟨"KeyError: coluna de commodity ausente", ?_⟩
  unfold aggCommodities
  rw [if_neg]
  intro hall
  obtain ⟨c, hc, hnc⟩ := h
  have hcont := List.all_eq_true.mp hall c hc
  exact hnc (by simpa using hcont)

/-- C10 witness: a table lacking `FuturoSoja` makes the Commodities-tab
aggregation error out. -/
theorem c10_commodities_witness :
    ∃ e, aggCommodities tabelaSemSoja = .error e :=
  c10_commodities_sem_guarda tabelaSemSoja ⟨"FuturoSoja", by decide, by decide⟩

/-- C4: with a date range supplied and the `Data` column present, the filter
block's output rows are exactly the input rows satisfying the conjunction of
the three constraints, where an empty product or customer selection imposes
no constraint on that dimension. -/
theorem c4_filtro_conjuncao (df : Tabela) (produtos clientes : List String)
    (di dfim : Int) (hcol : "Data" ∈ df.columns) :
    (aplicarFiltrosCore df produtos (some di) (some dfim) clientes).rows =
      df.rows.filter (fun r =>
        (produtos.isEmpty || produtos.contains r.produto) &&
        (decide (di ≤ r.data) && decide (r.data ≤ dfim)) &&
        (clientes.isEmpty || clientes.contains r.cliente)) := by
  unfold aplicarFiltrosCore
  by_cases hp : produtos.isEmpty <;> by_cases hc : clientes.isEmpty <;>
    simp [hp, hc, hcol, List.filter_filter] <;>
    refine List.filter_congr fun a ha => ?_ <;>
    by_cases h1 : a.produto ∈ produtos <;>
      by_cases h2 : a.cliente ∈ clientes <;>
        by_cases h3 : di ≤ a.data <;>
          by_cases h4 : a.data ≤ dfim <;>
            simp [h1, h2, h3, h4]

/-- C4 witness: the conjunction characterisation evaluated on a concrete
two-row table with a one-product selection. -/
theorem c4_filtro_witness :
    (aplicarFiltrosCore tabelaFiltro ["Ureia"] (some 1) (some 3)
        ["ClienteA", "ClienteB"]).rows =
      tabelaFiltro.rows.filter (fun r =>
        ((["Ureia"] : List String).isEmpty || ["Ureia"].contains r.produto) &&
        (decide ((1:Int) ≤ r.data) && decide (r.data ≤ (3:Int))) &&
        ((["ClienteA", "ClienteB"] : List String).isEmpty ||
          ["ClienteA", "ClienteB"].contains r.cliente)) :=
  c4_filtro_conjuncao tabelaFiltro ["Ureia"] ["ClienteA", "ClienteB"] 1 3
    (by decide)

/-- C7: filtering with a product selection covering every product of the
table, a customer selection covering every customer, and a date range
containing every date (in particular the min-to-max range) returns the
table unchanged. -/
theorem c7_filtro_total_identidade (df : Tabela)
    (produtos clientes : List String) (di dfim : Int)
    (hp : ∀ r ∈ df.rows, r.produto ∈ produtos)
    (hc : ∀ r ∈ df.rows, r.cliente ∈ clientes)
    (hd : ∀ r ∈ df.rows, di ≤ r.data ∧ r.data ≤ dfim) :
    aplicarFiltrosCore df produtos (some di) (some dfim) clientes = df := by
  have h1 : df.rows.filter (fun r => produtos.contains r.produto) = df.rows :=
    List.filter_eq_self.mpr (fun r hr => by simpa using hp r hr)
  have h2 : df.rows.filter
      (fun r => decide (di ≤ r.data) && decide (r.data ≤ dfim)) = df.rows :=
    List.filter_eq_self.mpr (fun r hr => by
      simp [(hd r hr).1, (hd r hr).2])
  have h3 : df.rows.filter (fun r => clientes.contains r.cliente) = df.rows :=
    List.filter_eq_self.mpr (fun r hr => by simpa using hc r hr)
  have e1 : (if produtos.isEmpty then df
      else ⟨df.columns,
        df.rows.filter (fun r => produtos.contains r.produto)⟩) = df := by
    split
    · rfl
    · rw [h1]
  have e2 : (if "Data" ∈ df.columns then
      (⟨df.columns, df.rows.filter
        (fun r => decide (di ≤ r.data) && decide (r.data ≤ dfim))⟩ : Tabela)
      else df) = df := by
    split
    · rw [h2]
    · rfl
  have e3 : (if clientes.isEmpty then df
      else ⟨df.columns,
        df.rows.filter (fun r => clientes.contains r.cliente)⟩) = df := by
    split
    · rfl
    · rw [h3]
  simp only [aplicarFiltrosCore]
  rw [e1, e2, e3]

/-- C7 witness: all-inclusive selections on the concrete two-row table leave
it unchanged. -/
theorem c7_filtro_total_witness :
    aplicarFiltrosCore tabelaFiltro ["Ureia", "KCl"] (some 1) (some 3)
      ["ClienteA", "ClienteB"] = tabelaFiltro :=
  c7_filtro_total_identidade tabelaFiltro ["Ureia", "KCl"]
    ["ClienteA", "ClienteB"] 1 3 (by decide) (by decide) (by decide)

/-! ## Alert-rule lemmas -/

/-- Mean of a constant series is the constant. -/
theorem media_replicate (n : ℕ) (c : ℚ) (hn : n ≠ 0) :
    media (List.replicate n c) = c := by
  rw [media, List.sum_replicate, List.length_replicate, nsmul_eq_mul,
    mul_div_cancel_left₀]
  exact_mod_cast hn

/-- Sample variance of a constant series is zero. -/
theorem varAmostral_replicate (n : ℕ) (c : ℚ) (hn : n ≠ 0) :
    varAmostral (List.replicate n c) = 0 := by
  simp [varAmostral, media_replicate n c hn]

/-- The exact-rational encoding used by `classificar` agrees with the
source's comparison against `m ± 2·sqrt v`: for any real `σ ≥ 0` with
`σ² = v`, `2σ < a` iff `0 < a` and `4v < a²`. -/
theorem duasSigmas_lt_iff (a v : ℚ) (σ : ℝ) (hσ : 0 ≤ σ)
    (hv : σ ^ 2 = (v : ℝ)) : 2 * σ < (a : ℝ) ↔ 0 < a ∧ 4 * v < a ^ 2 := by
  constructor
  · intro h
    have h2σ : (0:ℝ) ≤ 2 * σ := by linarith
    have ha : (0:ℝ) < (a : ℝ) := lt_of_le_of_lt h2σ h
    have hsq : 4 * (v : ℝ) < ((a : ℝ)) ^ 2 := by nlinarith
    exact ⟨by exact_mod_cast ha, by exact_mod_cast hsq⟩
  · rintro ⟨ha, hlt⟩
    have ha' : (0:ℝ) < (a : ℝ) := by exact_mod_cast ha
    have hlt' : 4 * (v : ℝ) < ((a : ℝ)) ^ 2 := by exact_mod_cast hlt
    nlinarith

/-- `classificar` implements the source's three-way rule exactly: HIGH iff
the current value strictly exceeds `m + 2σ`, LOW iff it is strictly below
`m − 2σ`, NORMAL otherwise, where `σ = sqrt v ≥ 0`. -/
theorem classificar_spec (atual m v : ℚ) (σ : ℝ) (hσ : 0 ≤ σ)
    (hv : σ ^ 2 = (v : ℝ)) :
    (classificar atual m v = .alta ↔ (m : ℝ) + 2 * σ < (atual : ℝ)) ∧
    (classificar atual m v = .baixa ↔ (atual : ℝ) < (m : ℝ) - 2 * σ) ∧
    (classificar atual m v = .normal ↔
      ¬((m : ℝ) + 2 * σ < (atual : ℝ)) ∧
      ¬((atual : ℝ) < (m : ℝ) - 2 * σ)) := by
  have hm := duasSigmas_lt_iff (atual - m) v σ hσ hv
  have hl := duasSigmas_lt_iff (m - atual) v σ hσ hv
  have e1 : ((m : ℝ) + 2 * σ < (atual : ℝ)) ↔
      (0 < atual - m ∧ 4 * v < (atual - m) ^ 2) := by
    rw [← hm]
    push_cast
    constructor <;> intro <;> linarith
  have e2 : ((atual : ℝ) < (m : ℝ) - 2 * σ) ↔
      (0 < m - atual ∧ 4 * v < (m - atual) ^ 2) := by
    rw [← hl]
    push_cast
    constructor <;> intro <;> linarith
  rw [e1, e2]
  unfold classificar
  split_ifs with h1 h2
  · refine ⟨⟨fun _ => h1, fun _ => rfl⟩, ?_, ?_⟩
    · refine iff_of_false (by simp) ?_
      rintro ⟨hb, -⟩
      have := h1.1
      linarith
    · exact iff_of_false (by simp) (fun hx => hx.1 h1)
  · refine ⟨iff_of_false (by simp) h1, ⟨fun _ => h2, fun _ => rfl⟩, ?_⟩
    · exact iff_of_false (by simp) (fun hx => hx.2 h2)
  · exact ⟨iff_of_false (by simp) h1, iff_of_false (by simp) h2,
      iff_of_true rfl ⟨h1, h2⟩⟩

/-- `serieExemplo` has 31 observations. -/
theorem serieExemplo_length : serieExemplo.length = 31 := by
  simp [serieExemplo]

/-- The code's window on `serieExemplo`: the last 30 observations,
including the newest value 1 and excluding the oldest value 100. -/
theorem janela30_serieExemplo :
    janela30 serieExemplo = List.replicate 29 0 ++ [1] := by
  simp [janela30, serieExemplo]

/-- Mean of the code's window on `serieExemplo`. -/
theorem media_janela_serieExemplo : media (janela30 serieExemplo) = 1 / 30 := by
  rw [janela30_serieExemplo]
  norm_num [media, List.sum_replicate]

/-- Sample variance of the code's window on `serieExemplo`. -/
theorem varAmostral_janela_serieExemplo :
    varAmostral (janela30 serieExemplo) = 1 / 30 := by
  rw [janela30_serieExemplo]
  norm_num [varAmostral, media, List.sum_replicate, List.map_replicate,
    nsmul_eq_mul]

/-- The most recent observation of `serieExemplo`. -/
theorem ultimo_serieExemplo : serieExemplo.getLast?.getD 0 = 1 := by
  simp only [serieExemplo]
  rw [List.getLast?_append_of_ne_nil _ (by simp)]
  rfl

/-- All but the most recent observation of `serieExemplo`. -/
theorem dropLast_serieExemplo :
    serieExemplo.dropLast = 100 :: List.replicate 29 0 := by
  simp only [serieExemplo]
  exact List.dropLast_concat

/-- The window the claim describes (the 30 observations preceding the most
recent one) on `serieExemplo`: includes the 100, excludes the 1. -/
theorem janelaAnterior_serieExemplo :
    janela30 serieExemplo.dropLast = 100 :: List.replicate 29 0 := by
  rw [dropLast_serieExemplo]
  simp [janela30]

/-- Mean of the claim's window on `serieExemplo`. -/
theorem media_janelaAnterior :
    media (100 :: List.replicate 29 (0:ℚ)) = 10 / 3 := by
  norm_num [media, List.sum_replicate]

/-- Sample variance of the claim's window on `serieExemplo`. -/
theorem varAmostral_janelaAnterior :
    varAmostral (100 :: List.replicate 29 (0:ℚ)) = 1000 / 3 := by
  norm_num [varAmostral, media, List.sum_replicate, List.map_replicate,
    nsmul_eq_mul]

/-- C2 counterexample: on the 31-observation series `serieExemplo` the code
classifies HIGH, while the rule as the claim states it (μ, σ over the 30
observations that precede the most recent one) classifies NORMAL — so the
code's trailing window is not the claimed one. -/
theorem c2_contraexemplo :
    monitorarAlertas serieExemplo = some .alta ∧
    monitorarAlertasJanelaAnterior serieExemplo = some .normal ∧
    monitorarAlertas serieExemplo ≠ monitorarAlertasJanelaAnterior serieExemplo := by
  have h31 : 30 < serieExemplo.length := by
    rw [serieExemplo_length]
    norm_num
  have h1 : monitorarAlertas serieExemplo = some .alta := by
    unfold monitorarAlertas
    rw [if_pos h31, media_janela_serieExemplo, varAmostral_janela_serieExemplo,
      ultimo_serieExemplo]
    norm_num [classificar]
  have h2 : monitorarAlertasJanelaAnterior serieExemplo = some .normal := by
    unfold monitorarAlertasJanelaAnterior
    rw [if_pos h31, janelaAnterior_serieExemplo, media_janelaAnterior,
      varAmostral_janelaAnterior, ultimo_serieExemplo]
    norm_num [classificar]
  refine ⟨h1, h2, ?_⟩
  rw [h1, h2]
  simp

/-- C2 (amended): with more than 30 observations the trailing window is the
LAST 30 observations — a suffix of the series that contains the most recent
(current) observation, rather than the 30 observations preceding it — and
the emitted classification applies `classificar` to the current value with
μ, σ² over that window; with 30 or fewer observations no classification is
emitted. -/
theorem c2_janela_inclui_atual (serie : List ℚ) :
    (30 < serie.length →
      (janela30 serie).length = 30 ∧
      serie.take (serie.length - 30) ++ janela30 serie = serie ∧
      (janela30 serie).getLast? = serie.getLast? ∧
      monitorarAlertas serie =
        some (classificar (serie.getLast?.getD 0) (media (janela30 serie))
          (varAmostral (janela30 serie)))) ∧
    (serie.length ≤ 30 → monitorarAlertas serie = none) := by
  constructor
  · intro h
    have hlen : (janela30 serie).length = 30 := by
      unfold janela30
      rw [List.length_drop]
      omega
    have happ : serie.take (serie.length - 30) ++ janela30 serie = serie :=
      List.take_append_drop _ _
    have hne : janela30 serie ≠ [] := by
      intro hnil
      rw [hnil] at hlen
      simp at hlen
    refine ⟨hlen, happ, ?_, ?_⟩
    · conv_rhs => rw [← happ]
      exact (List.getLast?_append_of_ne_nil _ hne).symm
    · unfold monitorarAlertas
      rw [if_pos h]
  · intro h
    unfold monitorarAlertas
    rw [if_neg (by omega)]

/-- C2 witness: the amended window characterisation evaluated on the
concrete 31-observation series. -/
theorem c2_janela_witness :
    (janela30 serieExemplo).length = 30 ∧
    serieExemplo.take (serieExemplo.length - 30) ++ janela30 serieExemplo =
      serieExemplo ∧
    (janela30 serieExemplo).getLast? = serieExemplo.getLast? ∧
    monitorarAlertas serieExemplo =
      some (classificar (serieExemplo.getLast?.getD 0)
        (media (janela30 serieExemplo)) (varAmostral (janela30 serieExemplo))) :=
  (c2_janela_inclui_atual serieExemplo).1
    (by rw [serieExemplo_length]; norm_num)

/-- C5: with more than 30 observations and trailing mean μ and sample
standard deviation σ (any real σ ≥ 0 with σ² equal to the window's sample
variance), the emitted alert is HIGH exactly when the current value strictly
exceeds μ + 2σ, LOW exactly when strictly below μ − 2σ, and NORMAL
otherwise; moreover every constant series of 31 observations classifies as
NORMAL (its variance is zero and no division by σ is involved). -/
theorem c5_classificacao_2sigma (serie : List ℚ) (h : 30 < serie.length)
    (σ : ℝ) (hσ : 0 ≤ σ)
    (hv : σ ^ 2 = ((varAmostral (janela30 serie) : ℚ) : ℝ)) :
    (monitorarAlertas serie = some .alta ↔
      ((media (janela30 serie) : ℚ) : ℝ) + 2 * σ <
        ((serie.getLast?.getD 0 : ℚ) : ℝ)) ∧
    (monitorarAlertas serie = some .baixa ↔
      ((serie.getLast?.getD 0 : ℚ) : ℝ) <
        ((media (janela30 serie) : ℚ) : ℝ) - 2 * σ) ∧
    (monitorarAlertas serie = some .normal ↔
      (¬(((media (janela30 serie) : ℚ) : ℝ) + 2 * σ <
          ((serie.getLast?.getD 0 : ℚ) : ℝ)) ∧
       ¬(((serie.getLast?.getD 0 : ℚ) : ℝ) <
          ((media (janela30 serie) : ℚ) : ℝ) - 2 * σ))) ∧
    (∀ c : ℚ, monitorarAlertas (List.replicate 31 c) = some .normal) := by
  have hmon : monitorarAlertas serie =
      some (classificar (serie.getLast?.getD 0) (media (janela30 serie))
        (varAmostral (janela30 serie))) := by
    unfold monitorarAlertas
    rw [if_pos h]
  have hs := classificar_spec (serie.getLast?.getD 0) (media (janela30 serie))
    (varAmostral (janela30 serie)) σ hσ hv
  refine ⟨?_, ?_, ?_, ?_⟩
  · rw [hmon]
    simpa using hs.1
  · rw [hmon]
    simpa using hs.2.1
  · rw [hmon]
    simpa using hs.2.2
  · intro c
    have h31 : 30 < (List.replicate 31 c).length := by simp
    have hj : janela30 (List.replicate 31 c) = List.replicate 30 c := by
      simp [janela30, List.replicate_succ]
    have hult : (List.replicate 31 c).getLast?.getD 0 = c := by
      rw [List.replicate_succ']
      rw [List.getLast?_append_of_ne_nil _ (by simp)]
      rfl
    unfold monitorarAlertas
    rw [if_pos h31, hj, hult, media_replicate 30 c (by norm_num),
      varAmostral_replicate 30 c (by norm_num)]
    simp [classificar]

/-- C5 witness: a constant 31-observation series (value 5) classifies as
NORMAL, with σ = 0 matching the window's zero variance. -/
theorem c5_classificacao_witness :
    monitorarAlertas (List.replicate 31 (5:ℚ)) = some Alerta.normal :=
  (c5_classificacao_2sigma (List.replicate 31 (5:ℚ)) (by simp) 0 le_rfl
    (by
      have hj : janela30 (List.replicate 31 (5:ℚ)) = List.replicate 30 5 := by
        simp [janela30, List.replicate_succ]
      rw [hj, varAmostral_replicate 30 5 (by norm_num)]
      norm_num)).2.2.2 5
